import Mathlib

/-!
  Verification of `code/tools/create_qdrant_collection.py` (NLWeb).

  The script is a thin CLI wrapper around an external `QdrantVectorClient`.
  We embed it shallowly:

  * the external client is a record of `Except String`-valued methods
    (an `.error e` models the method raising a Python exception whose
    `str` is `e`); the constructor itself may also raise, so the
    environment is a function from the requested endpoint name to
    `Except String QdrantVectorClient`;
  * each operation returns an `OpResult`: the lines printed to stdout
    (in order, one entry per `print` call), the messages passed to
    `logger.exception`, the trace of external-client interactions
    (constructor and method calls, in order), and the boolean returned;
  * `main` returns either `.ok output trace` (normal return, exit code 0)
    or `.uncaught msg output trace` (an exception escaping `main`, namely
    the `ValueError` of `int()`), carrying whatever had been printed and
    which client interactions had happened before the exception.
-/

namespace CreateQdrantCollection

/-- A single-quote character, used in the printed messages. -/
def sq : String := (Char.ofNat 39).toString

/-- One collection record returned by the remote service (object with a
`name` attribute). -/
structure CollectionInfo where
  name : String
deriving Repr, DecidableEq

/-- The response of `get_collections`: an object whose `collections`
attribute is the list of collection records. -/
structure CollectionsResponse where
  collections : List CollectionInfo
deriving Repr, DecidableEq

/-- The inner client obtained from `QdrantVectorClient._get_qdrant_client`;
its only method used here is `get_collections`. -/
structure InnerClient where
  get_collections : Except String CollectionsResponse

/-- Model of an external `QdrantVectorClient` instance: readable
properties `endpoint_name` and `default_collection_name` plus the
methods the script calls.  Each method may raise (`.error`). -/
structure QdrantVectorClient where
  endpoint_name : String
  default_collection_name : String
  collection_exists : Option String → Except String Bool
  create_collection : Option String → Int → Except String Bool
  recreate_collection : Option String → Int → Except String Bool
  get_qdrant_client : Except String InnerClient

/-- The external world: constructing `QdrantVectorClient(endpoint_name=e)`
may return a client or raise. -/
structure ClientEnv where
  construct : Option String → Except String QdrantVectorClient

/-- One interaction with the external client, for the call trace. -/
inductive ClientEvent where
  | construct (endpoint_name : Option String)
  | collection_exists (collection_name : Option String)
  | create_collection (collection_name : Option String) (vector_size : Int)
  | recreate_collection (collection_name : Option String) (vector_size : Int)
  | get_qdrant_client
  | get_collections
deriving Repr, DecidableEq

/-- Result of one operation: printed lines, logged messages, client-call
trace, and the returned boolean. -/
structure OpResult where
  output : List String
  logged : List String
  trace : List ClientEvent
  result : Bool
deriving Repr, DecidableEq

/-- Python `x or d` for an optional string `x`: the default is used both
when `x` is `None` and when it is the (falsy) empty string. -/
def orDefault (collection_name : Option String) (d : String) : String :=
  match collection_name with
  | none => d
  | some s => if s = "" then d else s

/-- The message printed and logged by the `except` block of
`create_qdrant_collection`. -/
def errCreate (e : String) : String := "Error creating collection: " ++ e

/-- The message printed and logged by the `except` block of
`list_qdrant_collections`. -/
def errList (e : String) : String := "Error listing collections: " ++ e

/-- Shallow embedding of `create_qdrant_collection(collection_name,
vector_size, endpoint_name, recreate)`.  The `try` block covers the whole
body, so every `.error` from the environment is turned into the printed
and logged error message and a `False` return. -/
def create_qdrant_collection (env : ClientEnv) (collection_name : Option String)
    (vector_size : Int) (endpoint_name : Option String) (recreate : Bool) :
    OpResult :=
  match env.construct endpoint_name with
  | .error e =>
      { output := [errCreate e], logged := [errCreate e],
        trace := [.construct endpoint_name], result := false }
  | .ok client =>
      let name := orDefault collection_name client.default_collection_name
      let header : List String :=
        ["Using endpoint: " ++ client.endpoint_name,
         "Collection name: " ++ name,
         "Vector size: " ++ toString vector_size]
      if recreate then
        let pre := header ++ ["Recreating collection " ++ sq ++ name ++ sq ++ "..."]
        match client.recreate_collection collection_name vector_size with
        | .error e =>
            { output := pre ++ [errCreate e], logged := [errCreate e],
              trace := [.construct endpoint_name,
                        .recreate_collection collection_name vector_size],
              result := false }
        | .ok success =>
            { output := pre ++
                [if success then
                   "Successfully recreated collection " ++ sq ++ name ++ sq
                 else "Collection recreation failed"],
              logged := [],
              trace := [.construct endpoint_name,
                        .recreate_collection collection_name vector_size],
              result := success }
      else
        match client.collection_exists collection_name with
        | .error e =>
            { output := header ++ [errCreate e], logged := [errCreate e],
              trace := [.construct endpoint_name,
                        .collection_exists collection_name],
              result := false }
        | .ok ex =>
            if ex then
              { output := header ++
                  ["Collection " ++ sq ++ name ++ sq ++ " already exists!"],
                logged := [],
                trace := [.construct endpoint_name,
                          .collection_exists collection_name],
                result := true }
            else
              let pre := header ++
                ["Creating collection " ++ sq ++ name ++ sq ++ "..."]
              match client.create_collection collection_name vector_size with
              | .error e =>
                  { output := pre ++ [errCreate e], logged := [errCreate e],
                    trace := [.construct endpoint_name,
                              .collection_exists collection_name,
                              .create_collection collection_name vector_size],
                    result := false }
              | .ok success =>
                  { output := pre ++
                      [if success then
                         "Successfully created collection " ++ sq ++ name ++ sq
                       else
                         "Collection creation failed or collection already exists"],
                    logged := [],
                    trace := [.construct endpoint_name,
                              .collection_exists collection_name,
                              .create_collection collection_name vector_size],
                    result := success }

/-- Shallow embedding of `list_qdrant_collections(endpoint_name)`. -/
def list_qdrant_collections (env : ClientEnv) (endpoint_name : Option String) :
    OpResult :=
  match env.construct endpoint_name with
  | .error e =>
      { output := [errList e], logged := [errList e],
        trace := [.construct endpoint_name], result := false }
  | .ok client =>
      let header : List String := ["Using endpoint: " ++ client.endpoint_name]
      match client.get_qdrant_client with
      | .error e =>
          { output := header ++ [errList e], logged := [errList e],
            trace := [.construct endpoint_name, .get_qdrant_client],
            result := false }
      | .ok qdrant_client =>
          match qdrant_client.get_collections with
          | .error e =>
              { output := header ++ [errList e], logged := [errList e],
                trace := [.construct endpoint_name, .get_qdrant_client,
                          .get_collections],
                result := false }
          | .ok resp =>
              { output := header ++
                  ["Found " ++ toString resp.collections.length ++ " collections:"]
                  ++ resp.collections.map (fun c => "  - " ++ c.name),
                logged := [],
                trace := [.construct endpoint_name, .get_qdrant_client,
                          .get_collections],
                result := true }

/-- ASCII lower-casing of one character, as Python `str.lower` acts on
the ASCII range (the only characters the dispatcher compares against). -/
def lowerChar (c : Char) : Char :=
  if 65 ≤ c.toNat ∧ c.toNat ≤ 90 then Char.ofNat (c.toNat + 32) else c

/-- Model of Python `str.lower()` (restricted to its ASCII action). -/
def pyLower (s : String) : String := ⟨s.data.map lowerChar⟩

/-- The whitespace characters Python `int()` strips from both ends. -/
def pyIsSpace (c : Char) : Bool :=
  c = ' ' || c = '\t' || c = '\n' || c = '\x0d' || c = '\x0b' || c = '\x0c'

/-- Strip leading and trailing whitespace, as `int()` does. -/
def stripSpaces (l : List Char) : List Char :=
  ((l.dropWhile pyIsSpace).reverse.dropWhile pyIsSpace).reverse

/-- After the first digit: digits with single underscores allowed only
between digits, as in a Python integer literal. -/
def digitsTail : List Char → Bool
  | [] => true
  | '_' :: c :: rest => c.isDigit && digitsTail rest
  | '_' :: [] => false
  | c :: rest => c.isDigit && digitsTail rest

/-- A nonempty digit string with optional single underscores between
digits (Python `int()` body after sign). -/
def digitsOk : List Char → Bool
  | [] => false
  | c :: rest => c.isDigit && digitsTail rest

/-- Numeric value of a digit-and-underscore string. -/
def digitsVal (l : List Char) : Int :=
  (l.filter (fun c => c ≠ '_')).foldl (fun n c => 10 * n + (c.toNat - 48)) 0

/-- Model of Python `int(s)` on a string: `some v` when the parse
succeeds, `none` when `int()` raises `ValueError`. -/
def pyInt (s : String) : Option Int :=
  match stripSpaces s.data with
  | '+' :: rest => if digitsOk rest then some (digitsVal rest) else none
  | '-' :: rest => if digitsOk rest then some (-(digitsVal rest)) else none
  | rest => if digitsOk rest then some (digitsVal rest) else none

/-- The `ValueError` message `int()` raises on a non-numeric token. -/
def valueErrorMsg (tok : String) : String :=
  "invalid literal for int() with base 10: " ++ sq ++ tok ++ sq

/-- The usage block printed (by a single `print` of a triple-quoted
string) when no command is given; verbatim from the source. -/
def usageText : String :=
  "\nUsage: python create_qdrant_collection.py [command] [options]\n"
  ++ "\nCommands:\n"
  ++ "  create [collection_name] [vector_size] [endpoint_name]  - Create a new collection\n"
  ++ "  recreate [collection_name] [vector_size] [endpoint_name] - Recreate (drop and create) a collection\n"
  ++ "  list [endpoint_name]                                    - List all collections\n"
  ++ "\nExamples:\n"
  ++ "  python create_qdrant_collection.py create\n"
  ++ "  python create_qdrant_collection.py create my_collection 1536\n"
  ++ "  python create_qdrant_collection.py create my_collection 1536 qdrant_local\n"
  ++ "  python create_qdrant_collection.py recreate my_collection\n"
  ++ "  python create_qdrant_collection.py list\n"
  ++ "  python create_qdrant_collection.py list qdrant_url\n"

/-- Outcome of one run of `main`: either a normal return with the printed
lines and the client-call trace, or an uncaught exception (the
`ValueError` of `int()`), with whatever was printed / called before it. -/
inductive MainResult where
  | ok (output : List String) (trace : List ClientEvent)
  | uncaught (message : String) (output : List String) (trace : List ClientEvent)
deriving Repr, DecidableEq

/-- `true` iff the run returned normally (process exit code 0). -/
def MainResult.isOk : MainResult → Bool
  | .ok _ _ => true
  | .uncaught _ _ _ => false

/-- Normal return carrying an operation's prints and trace (the boolean
the operation returns is discarded by `main`, as `asyncio.run`'s value is
unused). -/
def okOf (r : OpResult) : MainResult := .ok r.output r.trace

/-- The argument handling the source duplicates verbatim in the `create`
and `recreate` branches of `main`: `collection_name = sys.argv[2]` if
present else `None`, `vector_size = int(sys.argv[3])` if present else
`1536` (the `int()` call may raise, before any client is constructed),
`endpoint_name = sys.argv[4]` if present else `None`.  `rest` is
`sys.argv[2:]`. -/
def runSized (env : ClientEnv) (rest : List String) (rec : Bool) : MainResult :=
  match rest with
  | [] => okOf (create_qdrant_collection env none 1536 none rec)
  | [a] => okOf (create_qdrant_collection env (some a) 1536 none rec)
  | [a, t] =>
      match pyInt t with
      | none => .uncaught (valueErrorMsg t) [] []
      | some v => okOf (create_qdrant_collection env (some a) v none rec)
  | a :: t :: e2 :: _ =>
      match pyInt t with
      | none => .uncaught (valueErrorMsg t) [] []
      | some v => okOf (create_qdrant_collection env (some a) v (some e2) rec)

/-- Shallow embedding of `main()`.  `args` is `sys.argv[1:]` (the tokens
after the program name). -/
def main (env : ClientEnv) (args : List String) : MainResult :=
  match args with
  | [] => .ok [usageText] []
  | tok :: rest =>
      let command := pyLower tok
      if command = "create" then runSized env rest false
      else if command = "recreate" then runSized env rest true
      else if command = "list" then
        okOf (list_qdrant_collections env rest.head?)
      else
        .ok ["Unknown command: " ++ command] []

/-- `true` iff the invocation supplies a vector-size token (a third
positional argument to `create` or `recreate`) that `int()` rejects —
the only way `main` can end otherwise than by a normal return. -/
def parseHazard (args : List String) : Bool :=
  match args with
  | cmd :: _ :: t :: _ =>
      (pyLower cmd == "create" || pyLower cmd == "recreate")
        && (pyInt t).isNone
  | _ => false

/-! Concrete sample clients and environments, used to witness the
theorems below on closed inputs. -/

/-- A fully succeeding inner client holding two collections. -/
def okInner : InnerClient := ⟨.ok ⟨[⟨"docs"⟩, ⟨"images"⟩]⟩⟩

/-- A client every method of which succeeds; the existence query reports
the collection absent and both creation calls report success. -/
def okClient : QdrantVectorClient :=
  { endpoint_name := "qdrant_local", default_collection_name := "nlweb_collection",
    collection_exists := fun _ => .ok false,
    create_collection := fun _ _ => .ok true,
    recreate_collection := fun _ _ => .ok true,
    get_qdrant_client := .ok okInner }

/-- An environment whose constructor always returns the given client. -/
def envOf (c : QdrantVectorClient) : ClientEnv := ⟨fun _ => .ok c⟩

/-- An environment whose constructor raises. -/
def ctorFailEnv : ClientEnv := ⟨fun _ => .error "connection refused"⟩

/-- Like `okClient` but the existence query reports the collection
already present. -/
def existsTrueClient : QdrantVectorClient :=
  { okClient with collection_exists := fun _ => .ok true }

/-- Like `okClient` but the existence query raises. -/
def existsFailClient : QdrantVectorClient :=
  { okClient with collection_exists := fun _ => .error "timeout" }

/-- Like `okClient` but `create_collection` raises. -/
def createFailClient : QdrantVectorClient :=
  { okClient with create_collection := fun _ _ => .error "timeout" }

/-- Like `okClient` but `recreate_collection` raises. -/
def recreateFailClient : QdrantVectorClient :=
  { okClient with recreate_collection := fun _ _ => .error "timeout" }

/-- Like `okClient` but `_get_qdrant_client` raises. -/
def innerFailClient : QdrantVectorClient :=
  { okClient with get_qdrant_client := .error "timeout" }

/-- Like `okClient` but `get_collections` on the inner client raises. -/
def getColsFailClient : QdrantVectorClient :=
  { okClient with get_qdrant_client := .ok ⟨.error "timeout"⟩ }

/-! Helper lemmas. -/

/-- ASCII lower-casing is idempotent: a lower-cased character is outside
the upper-case range, so a second pass leaves it unchanged. -/
theorem lowerChar_idem (c : Char) : lowerChar (lowerChar c) = lowerChar c := by
  unfold lowerChar
  by_cases h : 65 ≤ c.toNat ∧ c.toNat ≤ 90
  · rw [if_pos h]
    obtain ⟨h1, h2⟩ := h
    generalize c.toNat = n at h1 h2 ⊢
    interval_cases n <;> decide
  · rw [if_neg h, if_neg h]

theorem map_lowerChar_idem (l : List Char) :
    (l.map lowerChar).map lowerChar = l.map lowerChar := by
  induction l with
  | nil => rfl
  | cons c t ih => simp only [List.map_cons, lowerChar_idem, ih]

/-- `str.lower()` is idempotent. -/
theorem pyLower_idem (s : String) : pyLower (pyLower s) = pyLower s :=
  congrArg String.mk (map_lowerChar_idem s.data)

/-! The claims. -/

/-- Claim C1: in each of the three operations, every exception raised by
the external client — by its constructor, the existence query, the
creation call, the recreate call, `_get_qdrant_client`, or
`get_collections` — is caught: the operation returns `false`, its last
printed line is the plain-text error message, and that message is
logged; no exception escapes to the caller (the operations are total
functions into `OpResult`). -/
theorem client_exception_never_escapes (env : ClientEnv)
    (name ep : Option String) (size : Int) (e : String)
    (client : QdrantVectorClient) (inner : InnerClient) :
    (∀ rec, env.construct ep = .error e →
       create_qdrant_collection env name size ep rec =
         ⟨[errCreate e], [errCreate e], [.construct ep], false⟩) ∧
    (env.construct ep = .ok client →
       client.collection_exists name = .error e →
       (create_qdrant_collection env name size ep false).result = false ∧
       (create_qdrant_collection env name size ep false).output.getLast? =
         some (errCreate e) ∧
       (create_qdrant_collection env name size ep false).logged = [errCreate e]) ∧
    (env.construct ep = .ok client →
       client.collection_exists name = .ok false →
       client.create_collection name size = .error e →
       (create_qdrant_collection env name size ep false).result = false ∧
       (create_qdrant_collection env name size ep false).output.getLast? =
         some (errCreate e) ∧
       (create_qdrant_collection env name size ep false).logged = [errCreate e]) ∧
    (env.construct ep = .ok client →
       client.recreate_collection name size = .error e →
       (create_qdrant_collection env name size ep true).result = false ∧
       (create_qdrant_collection env name size ep true).output.getLast? =
         some (errCreate e) ∧
       (create_qdrant_collection env name size ep true).logged = [errCreate e]) ∧
    (env.construct ep = .error e →
       list_qdrant_collections env ep =
         ⟨[errList e], [errList e], [.construct ep], false⟩) ∧
    (env.construct ep = .ok client →
       client.get_qdrant_client = .error e →
       (list_qdrant_collections env ep).result = false ∧
       (list_qdrant_collections env ep).output.getLast? = some (errList e) ∧
       (list_qdrant_collections env ep).logged = [errList e]) ∧
    (env.construct ep = .ok client →
       client.get_qdrant_client = .ok inner →
       inner.get_collections = .error e →
       (list_qdrant_collections env ep).result = false ∧
       (list_qdrant_collections env ep).output.getLast? = some (errList e) ∧
       (list_qdrant_collections env ep).logged = [errList e]) := by
  refine ⟨fun rec h1 => ?_, fun h1 h2 => ?_, fun h1 h2 h3 => ?_, fun h1 h2 => ?_,
          fun h1 => ?_, fun h1 h2 => ?_, fun h1 h2 h3 => ?_⟩
  · cases rec <;> simp [create_qdrant_collection, h1]
  · simp [create_qdrant_collection, h1, h2, List.getLast?_concat]
  · simp [create_qdrant_collection, h1, h2, h3, List.getLast?_concat]
  · simp [create_qdrant_collection, h1, h2, List.getLast?_concat]
  · simp [list_qdrant_collections, h1]
  · simp [list_qdrant_collections, h1, h2, List.getLast?_concat]
  · simp [list_qdrant_collections, h1, h2, h3, List.getLast?_concat]

/-- Witness for C1: each failure point exercised on a concrete client. -/
theorem client_exception_never_escapes_witness :
    create_qdrant_collection ctorFailEnv none 1536 none false =
      ⟨[errCreate "connection refused"], [errCreate "connection refused"],
       [.construct none], false⟩ ∧
    ((create_qdrant_collection (envOf existsFailClient) none 1536 none false).result
        = false ∧
     (create_qdrant_collection (envOf existsFailClient) none 1536 none false).output.getLast?
        = some (errCreate "timeout") ∧
     (create_qdrant_collection (envOf existsFailClient) none 1536 none false).logged
        = [errCreate "timeout"]) ∧
    ((create_qdrant_collection (envOf createFailClient) none 1536 none false).result
        = false ∧
     (create_qdrant_collection (envOf createFailClient) none 1536 none false).output.getLast?
        = some (errCreate "timeout") ∧
     (create_qdrant_collection (envOf createFailClient) none 1536 none false).logged
        = [errCreate "timeout"]) ∧
    ((create_qdrant_collection (envOf recreateFailClient) none 1536 none true).result
        = false ∧
     (create_qdrant_collection (envOf recreateFailClient) none 1536 none true).output.getLast?
        = some (errCreate "timeout") ∧
     (create_qdrant_collection (envOf recreateFailClient) none 1536 none true).logged
        = [errCreate "timeout"]) ∧
    list_qdrant_collections ctorFailEnv none =
      ⟨[errList "connection refused"], [errList "connection refused"],
       [.construct none], false⟩ ∧
    ((list_qdrant_collections (envOf innerFailClient) none).result = false ∧
     (list_qdrant_collections (envOf innerFailClient) none).output.getLast?
        = some (errList "timeout") ∧
     (list_qdrant_collections (envOf innerFailClient) none).logged
        = [errList "timeout"]) ∧
    ((list_qdrant_collections (envOf getColsFailClient) none).result = false ∧
     (list_qdrant_collections (envOf getColsFailClient) none).output.getLast?
        = some (errList "timeout") ∧
     (list_qdrant_collections (envOf getColsFailClient) none).logged
        = [errList "timeout"]) :=
  ⟨(client_exception_never_escapes ctorFailEnv none none 1536 "connection refused"
      okClient okInner).1 false rfl,
   (client_exception_never_escapes (envOf existsFailClient) none none 1536 "timeout"
      existsFailClient okInner).2.1 rfl rfl,
   (client_exception_never_escapes (envOf createFailClient) none none 1536 "timeout"
      createFailClient okInner).2.2.1 rfl rfl rfl,
   (client_exception_never_escapes (envOf recreateFailClient) none none 1536 "timeout"
      recreateFailClient okInner).2.2.2.1 rfl rfl,
   (client_exception_never_escapes ctorFailEnv none none 1536 "connection refused"
      okClient okInner).2.2.2.2.1 rfl,
   (client_exception_never_escapes (envOf innerFailClient) none none 1536 "timeout"
      innerFailClient okInner).2.2.2.2.2.1 rfl rfl,
   (client_exception_never_escapes (envOf getColsFailClient) none none 1536 "timeout"
      getColsFailClient ⟨.error "timeout"⟩).2.2.2.2.2.2 rfl rfl rfl⟩

/-- Claim C2: when the existence query reports the collection present,
`create` returns `true` and its client-call trace is exactly the
constructor followed by the existence query — the creation method is
never invoked, so the existing collection (and its vector size) is not
altered, and a second `create` on the same name succeeds with no error. -/
theorem create_existing_is_noop (env : ClientEnv) (name ep : Option String)
    (size : Int) (client : QdrantVectorClient)
    (h1 : env.construct ep = .ok client)
    (h2 : client.collection_exists name = .ok true) :
    (create_qdrant_collection env name size ep false).result = true ∧
    (create_qdrant_collection env name size ep false).trace =
      [.construct ep, .collection_exists name] := by
  simp [create_qdrant_collection, h1, h2]

/-- Witness for C2. -/
theorem create_existing_is_noop_witness :
    (create_qdrant_collection (envOf existsTrueClient) (some "docs") 1536 none
        false).result = true ∧
    (create_qdrant_collection (envOf existsTrueClient) (some "docs") 1536 none
        false).trace = [.construct none, .collection_exists (some "docs")] :=
  create_existing_is_noop (envOf existsTrueClient) (some "docs") none 1536
    existsTrueClient rfl rfl

/-- Claim C3: `recreate` performs no existence check — its trace is
exactly the constructor followed by the recreate (drop-then-create)
call, with no existence query — and it returns exactly the boolean the
client's recreate call reported (`true` on success). -/
theorem recreate_unconditional_drop_create (env : ClientEnv)
    (name ep : Option String) (size : Int) (client : QdrantVectorClient)
    (b : Bool)
    (h1 : env.construct ep = .ok client)
    (h2 : client.recreate_collection name size = .ok b) :
    (create_qdrant_collection env name size ep true).result = b ∧
    (create_qdrant_collection env name size ep true).trace =
      [.construct ep, .recreate_collection name size] := by
  simp [create_qdrant_collection, h1, h2]

/-- Witness for C3. -/
theorem recreate_unconditional_drop_create_witness :
    (create_qdrant_collection (envOf okClient) (some "docs") 1536 none
        true).result = true ∧
    (create_qdrant_collection (envOf okClient) (some "docs") 1536 none
        true).trace = [.construct none, .recreate_collection (some "docs") 1536] :=
  recreate_unconditional_drop_create (envOf okClient) (some "docs") none 1536
    okClient true rfl rfl

/-- Claim C4: on a successful run, `list` returns `true` and its printed
lines are the endpoint line, the count line, and then exactly one line
per collection record the client returned, carrying that record's name,
in the order received. -/
theorem list_prints_names_in_order (env : ClientEnv) (ep : Option String)
    (client : QdrantVectorClient) (inner : InnerClient)
    (resp : CollectionsResponse)
    (h1 : env.construct ep = .ok client)
    (h2 : client.get_qdrant_client = .ok inner)
    (h3 : inner.get_collections = .ok resp) :
    (list_qdrant_collections env ep).result = true ∧
    (list_qdrant_collections env ep).output =
      ("Using endpoint: " ++ client.endpoint_name)
        :: ("Found " ++ toString resp.collections.length ++ " collections:")
        :: resp.collections.map (fun c => "  - " ++ c.name) := by
  simp [list_qdrant_collections, h1, h2, h3]

/-- Witness for C4. -/
theorem list_prints_names_in_order_witness :
    (list_qdrant_collections (envOf okClient) none).result = true ∧
    (list_qdrant_collections (envOf okClient) none).output =
      ("Using endpoint: " ++ okClient.endpoint_name)
        :: ("Found " ++ toString (2 : Nat) ++ " collections:")
        :: ["  - docs", "  - images"] :=
  list_prints_names_in_order (envOf okClient) none okClient okInner
    ⟨[⟨"docs"⟩, ⟨"images"⟩]⟩ rfl rfl rfl

/-- Claim C5: with no optional positional arguments the dispatcher runs
the selected operation with `vector_size = 1536` and `None` for both the
collection name and the endpoint name (leaving both to the client's
defaults), and supplied tokens override these left-to-right. -/
theorem dispatch_defaults_and_overrides (env : ClientEnv) (n s e2 : String)
    (v : Int) :
    main env ["create"] =
      okOf (create_qdrant_collection env none 1536 none false) ∧
    main env ["recreate"] =
      okOf (create_qdrant_collection env none 1536 none true) ∧
    main env ["list"] = okOf (list_qdrant_collections env none) ∧
    (pyInt s = some v →
      main env ["create", n, s, e2] =
        okOf (create_qdrant_collection env (some n) v (some e2) false)) ∧
    (pyInt s = some v →
      main env ["recreate", n, s, e2] =
        okOf (create_qdrant_collection env (some n) v (some e2) true)) ∧
    main env ["list", e2] = okOf (list_qdrant_collections env (some e2)) := by
  refine ⟨rfl, rfl, rfl, fun hp => ?_, fun hp => ?_, rfl⟩
  · show runSized env [n, s, e2] false = _
    simp [runSized, hp]
  · show runSized env [n, s, e2] true = _
    simp [runSized, hp]

/-- Witness for C5 (the conjuncts with a parse hypothesis, at `768`). -/
theorem dispatch_defaults_and_overrides_witness :
    main ctorFailEnv ["create", "docs", "768", "local"] =
      okOf (create_qdrant_collection ctorFailEnv (some "docs") 768 (some "local")
        false) ∧
    main ctorFailEnv ["recreate", "docs", "768", "local"] =
      okOf (create_qdrant_collection ctorFailEnv (some "docs") 768 (some "local")
        true) :=
  ⟨(dispatch_defaults_and_overrides ctorFailEnv "docs" "768" "local" 768).2.2.2.1
      (by decide),
   (dispatch_defaults_and_overrides ctorFailEnv "docs" "768" "local"
      768).2.2.2.2.1 (by decide)⟩

/-- Claim C6: whenever the vector-size token, if supplied to `create` or
`recreate`, parses as an integer, `main` returns normally (modelled by
`MainResult.ok`, i.e. exit code 0), whatever boolean the operation
returned — the operation's result is discarded, never propagated to the
process exit status. -/
theorem main_returns_normally (env : ClientEnv) (args : List String)
    (h : parseHazard args = false) : (main env args).isOk = true := by
  cases args with
  | nil => rfl
  | cons tok rest =>
    by_cases h1 : pyLower tok = "create"
    · cases rest with
      | nil => simp [main, h1, runSized, okOf, MainResult.isOk]
      | cons a rest2 =>
        cases rest2 with
        | nil => simp [main, h1, runSized, okOf, MainResult.isOk]
        | cons t rest3 =>
          have hv : (pyInt t).isSome = true := by
            simp [parseHazard, h1] at h
            exact h
          cases hpv : pyInt t with
          | none => rw [hpv] at hv; simp at hv
          | some v =>
            cases rest3 <;>
              simp [main, h1, runSized, hpv, okOf, MainResult.isOk]
    · by_cases h2 : pyLower tok = "recreate"
      · cases rest with
        | nil => simp [main, h1, h2, runSized, okOf, MainResult.isOk]
        | cons a rest2 =>
          cases rest2 with
          | nil => simp [main, h1, h2, runSized, okOf, MainResult.isOk]
          | cons t rest3 =>
            have hv : (pyInt t).isSome = true := by
              simp [parseHazard, h1, h2] at h
              exact h
            cases hpv : pyInt t with
            | none => rw [hpv] at hv; simp at hv
            | some v =>
              cases rest3 <;>
                simp [main, h1, h2, runSized, hpv, okOf, MainResult.isOk]
      · by_cases h3 : pyLower tok = "list"
        · simp [main, h1, h2, h3, okOf, MainResult.isOk]
        · simp [main, h1, h2, h3, MainResult.isOk]

/-- Witness for C6: a failing client still yields a normal return. -/
theorem main_returns_normally_witness :
    parseHazard ["create", "docs", "768", "local"] = false ∧
    (main ctorFailEnv ["create", "docs", "768", "local"]).isOk = true :=
  ⟨by decide,
   main_returns_normally ctorFailEnv ["create", "docs", "768", "local"]
     (by decide)⟩

/-- Counterexample to C7 as stated: on first token `"FOO"` the
dispatcher prints the lower-cased form `"Unknown command: foo"`, not the
token the user supplied. -/
theorem unknown_command_counterexample :
    main ctorFailEnv ["FOO"] = .ok ["Unknown command: foo"] [] ∧
    ("Unknown command: foo" : String) ≠ "Unknown command: FOO" :=
  ⟨by decide, by decide⟩

/-- Claim C7 (amended): on an unrecognized first token the dispatcher
prints `"Unknown command: <lower-cased token>"` and returns normally,
with no client constructed and no remote call made (empty trace). -/
theorem unknown_command_lowercased (env : ClientEnv) (t : String)
    (rest : List String)
    (h1 : pyLower t ≠ "create") (h2 : pyLower t ≠ "recreate")
    (h3 : pyLower t ≠ "list") :
    main env (t :: rest) = .ok ["Unknown command: " ++ pyLower t] [] := by
  simp [main, h1, h2, h3]

/-- Witness for the amended C7. -/
theorem unknown_command_lowercased_witness :
    main ctorFailEnv ["FOO"] = .ok ["Unknown command: " ++ pyLower "FOO"] [] :=
  unknown_command_lowercased ctorFailEnv "FOO" [] (by decide) (by decide)
    (by decide)

/-- Claim C8: with no arguments, `main` prints exactly the usage block
(one `print` call, text verbatim in `usageText`) and returns normally
with an empty client trace: no client is constructed and no remote call
is made. -/
theorem no_args_prints_usage_no_calls (env : ClientEnv) :
    main env [] = .ok [usageText] [] := rfl

/-- Claim C9: a third positional token for `create` or `recreate` that
`int()` rejects makes `main` end with the uncaught `ValueError`, with
nothing printed and an empty client trace — no client constructed, no
remote call made. -/
theorem vector_size_parse_failure_uncaught (env : ClientEnv)
    (cmd a t2 : String) (rest : List String)
    (hcmd : pyLower cmd = "create" ∨ pyLower cmd = "recreate")
    (hp : pyInt t2 = none) :
    main env (cmd :: a :: t2 :: rest) = .uncaught (valueErrorMsg t2) [] [] := by
  have hne : ("recreate" : String) ≠ "create" := by decide
  rcases hcmd with hc | hc <;>
    cases rest <;> simp [main, runSized, hc, hp, hne]

/-- Witness for C9. -/
theorem vector_size_parse_failure_uncaught_witness :
    pyInt "abc" = none ∧
    main ctorFailEnv ["create", "docs", "abc"] =
      .uncaught (valueErrorMsg "abc") [] [] :=
  ⟨by decide,
   vector_size_parse_failure_uncaught ctorFailEnv "create" "docs" "abc" []
     (Or.inl (by decide)) (by decide)⟩

/-- Claim C10: dispatch is case-insensitive — the first token is
lower-cased before comparison, so running `main` on any token behaves
identically to running it on the token's lower-cased form (hence any
capitalization of `create`, `recreate`, `list` selects that operation). -/
theorem dispatch_case_insensitive (env : ClientEnv) (t : String)
    (rest : List String) :
    main env (t :: rest) = main env (pyLower t :: rest) := by
  simp only [main, pyLower_idem]

end CreateQdrantCollection
